import Mathlib

/-!
Verification development for the interactive raster-editing core of the
bitmappery repository (per-layer paint pipeline).

The JavaScript sources are shallowly embedded as Lean definitions:

* `src/rendering/canvas-elements/layer-sprite.js` — the `LayerSprite`
  interaction state machine (brush state, debounced snapshot commits,
  tool activation, pointer handlers, per-frame update) is embedded as
  explicit state passing over `SpriteState`.  External collaborators
  (`setTimeout`/`clearTimeout`, `canvasToBlob`/`blobToResource`,
  `enqueueState`, the stroke/fill rasterisation primitives) are modelled
  by their observable effects: a list of live timers, a snapshot-id
  counter, a history list, and raster-write counters.
* `src/math/image-math.js` — `constrain` and `scaleToRatio` are embedded
  over exact arithmetic (`ℝ` where `Math.sqrt` is involved, `ℚ` for the
  purely rational `scaleToRatio`).
* The save/restore discipline of `LayerSprite.paint` is additionally
  embedded as a context-event trace (`paintCtxTrace`).

The embedding of the interaction state machine covers untransformed
layers (`effects.rotation = 0`, no mirroring): the claims under scrutiny
quantify over interaction sequences, not over the trigonometric
coordinate mapping, which only affects pointer values, never control
flow or the bookkeeping fields at stake.
-/

namespace Bitmappery

/-- A recorded pointer position (JS `{ x, y }`). -/
structure Point where
  x : Int
  y : Int
deriving DecidableEq, Repr

/-- Tool kinds from `@/definitions/tool-types` that `layer-sprite.js`
dispatches on (`DRAG`, `FILL`, `ERASER`, `BRUSH`, `CLONE`, `EYEDROPPER`);
`move` stands for any tool handled by the `default` switch branch. -/
inductive Tool where
  | move
  | drag
  | fill
  | eraser
  | brush
  | clone
  | eyedropper
deriving DecidableEq, Repr

/-- The tool-options object handed to `handleActiveTool`; `coords` is the
clone-tool source anchor which `handlePress` mutates in place. -/
structure ToolOptions where
  size : Nat
  coords : Option Point
  smartFill : Bool
  sourceLayerId : Nat
deriving DecidableEq, Repr

/-- `this.actionTarget`, selecting which of the layer buffers receives
paint operations (`"source"` or `"mask"`). -/
inductive ActionTarget where
  | source
  | mask
deriving DecidableEq, Repr

/-- The slice of the Layer model read or written by the embedded
operations.  `canDrawWhenSelected` models `canDrawOnSelection( layer )`
from `@/definitions/tool-types` (source not included): per the spec, the
layer capability that permits drawing while a selection is active. -/
structure Layer where
  left : Int
  top : Int
  maskX : Int
  maskY : Int
  hasMask : Bool
  canDrawWhenSelected : Bool
deriving DecidableEq, Repr

/-- The Brush State (`this._brush`): "down" flag, recorded pointer
samples, count of previously processed samples (`last`), radius. -/
structure Brush where
  down : Bool
  pointers : List Point
  last : Nat
  radius : Nat
deriving DecidableEq, Repr

/-- Modelled from the spec: `BrushFactory.create` (source not included)
produces a fresh Brush State — "down" false, zero processed samples —
carrying the supplied radius and pointer list (the call in `cacheBrush`
passes the previous pointers through). -/
def brushFactoryCreate (radius : Nat) (pointers : List Point) : Brush :=
  { down := false, pointers := pointers, last := 0, radius := radius }

/-- The preferences state of the preferences store module
(`lowMemory`, `wasmFilters`, `snapAlign`, `antiAlias`). -/
structure Preferences where
  lowMemory : Bool
  wasmFilters : Bool
  snapAlign : Bool
  antiAlias : Bool
deriving DecidableEq, Repr

/-- The store getters consulted by `layer-sprite.js`:
`getPreference( name )` (curried over `prefs`), the `snapAlign` getter,
and whether `getters.activeLayerMask` equals this layer's mask
(consumed by `isMaskable`). -/
structure Store where
  prefs : Preferences
  snapAlign : Bool
  activeMaskMatches : Bool
deriving DecidableEq, Repr

/-- A history entry enqueued through `enqueueState`: either a
`spritePaint_` entry owning the before/after snapshot resources, or a
`maskPos_` entry capturing old/new mask offsets. -/
inductive HistoryEntry where
  | spritePaint (before : Option Nat) (after : Nat)
  | maskPos (oldX oldY newX newY : Int)
deriving DecidableEq, Repr

/-- Observable record of one `paint()` invocation: whether the pass ran
in low-resolution preview mode, and the brush `last` index and pointer
count at the moment of the call (`last = 0` with `total` the full count
means the pass covered the entire recorded pointer path). -/
structure PaintPass where
  lowRes : Bool
  lastIdx : Nat
  total : Nat
deriving DecidableEq, Repr

/-- The active document as seen by `setSelection`: the selection polygon
and the invert-selection flag. -/
structure Document where
  selection : List Point
  invertSelection : Bool
deriving DecidableEq, Repr

/-- Modelled from the spec: `isSelectionClosed` (`@/math/selection-math`,
source not included) — a selection is closed when it has at least three
points forming a closed loop; fewer than three points count as no
selection. -/
def isSelectionClosed (selection : List Point) : Bool :=
  3 ≤ selection.length && selection.head? == selection.getLast?

/-- The full state of one `LayerSprite` together with the observable
effects of its external collaborators:

* sprite fields and interaction flags as in the constructor and
  `handleActiveTool`;
* `liveTimers` — the timers created through `setTimeout` and not yet
  elapsed or cleared, as `(id, delay ms)` pairs; `nextTimerId` supplies
  fresh handles;
* `nextSnapshotId` — fresh ids for `canvasToBlob`/`blobToResource`
  snapshot resources;
* `history` — the entries enqueued through `enqueueState`;
* `layerWrites` / `tempWrites` — counters of raster writes committed to
  the layer's permanent pixel buffers (source or mask) and to the
  low-resolution preview buffer respectively;
* `paintLog` — one `PaintPass` per `paint()` invocation. -/
structure SpriteState where
  layer : Layer
  store : Store
  brush : Brush
  interactive : Bool
  draggable : Bool
  isDragging : Bool
  isPaintMode : Bool
  isDragMode : Bool
  isColorPicker : Bool
  selection : Option (List Point)
  invertSelection : Bool
  toolType : Option Tool
  toolOptions : Option ToolOptions
  cloneStartCoords : Option Point
  pendingPaintState : Option Nat
  orgSourceToStore : Option Nat
  tempCanvas : Bool
  actionTarget : ActionTarget
  pointerX : Int
  pointerY : Int
  boundsLeft : Int
  boundsTop : Int
  dragStartOffset : Point
  dragStartEventCoordinates : Point
  draggingSprite : Bool
  guides : Point
  liveTimers : List (Nat × Nat)
  nextTimerId : Nat
  nextSnapshotId : Nat
  history : List HistoryEntry
  paintLog : List PaintPass
  layerWrites : Nat
  tempWrites : Nat
deriving DecidableEq, Repr

/-- `storeBrushPointer( x, y )`: marks the brush "down" and appends the
pointer sample. -/
def storeBrushPointer (x y : Int) (s : SpriteState) : SpriteState :=
  { s with brush := { s.brush with down := true, pointers := s.brush.pointers ++ [⟨x, y⟩] } }

/-- `isMaskable()`: the layer has a mask and it is the store's active
layer mask. -/
def isMaskable (s : SpriteState) : Bool :=
  s.layer.hasMask && s.store.activeMaskMatches

/-- `setSelection( document, onlyWhenClosed )`. -/
def setSelection (doc : Document) (onlyWhenClosed : Bool) (s : SpriteState) : SpriteState :=
  let sel :=
    if !onlyWhenClosed || (isSelectionClosed doc.selection && s.layer.canDrawWhenSelected) then
      if doc.selection.length != 0 then some doc.selection else none
    else
      none
  { s with selection := sel, invertSelection := sel.isSome && doc.invertSelection }

/-- `cacheBrush( color, toolOptions )`: replaces the brush through
`BrushFactory.create`, keeping the existing pointers and taking the
radius from `toolOptions.size` (the color is not tracked here). -/
def cacheBrush (toolOptions : ToolOptions) (s : SpriteState) : SpriteState :=
  { s with brush := brushFactoryCreate toolOptions.size s.brush.pointers }

/-- `forceMoveListener()`: keeps the zCanvas move handler engaged by
marking the sprite as dragging and capturing the drag start offsets. -/
def forceMoveListener (s : SpriteState) : SpriteState :=
  { s with isDragging := true
         , dragStartOffset := ⟨s.boundsLeft, s.boundsTop⟩
         , dragStartEventCoordinates := ⟨s.pointerX, s.pointerY⟩ }

/-- `debouncePaintStore( timeout = 5000 )`: arms a new timer whose
callback is `storePaintState` and records its handle in
`_pendingPaintState`.  As with JS `setTimeout`, any previously created
timer is untouched — it stays live unless explicitly cleared. -/
def debouncePaintStore (s : SpriteState) (timeout : Nat := 5000) : SpriteState :=
  { s with pendingPaintState := some s.nextTimerId
         , liveTimers := s.liveTimers ++ [(s.nextTimerId, timeout)]
         , nextTimerId := s.nextTimerId + 1 }

/-- JS `clearTimeout( id )`: removes the timer with the given handle
from the live set (a no-op when it already elapsed or never existed). -/
def clearTimeoutOp (tid : Nat) (s : SpriteState) : SpriteState :=
  { s with liveTimers := s.liveTimers.filter (fun t => t.1 != tid) }

/-- `preparePendingPaintState()`: captures the encoded "before" snapshot
of the layer source into `_orgSourceToStore` and arms the debounced
commit with the default 5000 ms delay. -/
def preparePendingPaintState (s : SpriteState) : SpriteState :=
  let s := { s with orgSourceToStore := some s.nextSnapshotId
                  , nextSnapshotId := s.nextSnapshotId + 1 }
  debouncePaintStore s

/-- `rotatePointerLists( pointers, layer, w, h )`, embedded for
untransformed layers: with `effects.rotation = 0` and no mirroring,
`translatePointerRotation` about the centre is the identity, so each
pointer is only translated against the layer position
(`point.x - layer.left`, `point.y - layer.top`). -/
def rotatePointerLists (layer : Layer) (pointers : List Point) : List Point :=
  pointers.map (fun p => ⟨p.x - layer.left, p.y - layer.top⟩)

/-- `paint()` (invoked without `optAction`, as at every call site inside
`layer-sprite.js`): arms the pending paint state when absent, then
dispatches on the active tool.  Raster output is recorded through the
write counters and the `paintLog`; the full-resolution brush path also
rotates the recorded pointers into layer space, exactly as the source
reassigns `this._brush.pointers`. -/
def paint (s : SpriteState) : SpriteState :=
  let s := if s.pendingPaintState = none then preparePendingPaintState s else s
  let drawOnMask := isMaskable s
  let isCloneStamp := s.toolType = some Tool.clone
  let isFillMode := s.toolType = some Tool.fill
  let lowRes := s.brush.down && !(drawOnMask && (s.toolType == some Tool.eraser))
  let s := { s with paintLog := s.paintLog ++ [⟨lowRes, s.brush.last, s.brush.pointers.length⟩] }
  if isFillMode then
    -- floodFill / fill / fillRect write directly to the layer buffer
    { s with layerWrites := s.layerWrites + 1 }
  else if isCloneStamp then
    -- the clone stamp renders direct-to-Layer-source, but only while in
    -- low resolution preview mode (brush held down)
    if lowRes then { s with layerWrites := s.layerWrites + 1 } else s
  else
    if lowRes then
      -- live update renders on the (lazily created) low-res temp canvas
      { s with tempCanvas := true, tempWrites := s.tempWrites + 1 }
    else
      -- full brush path rendered on a scratch canvas, pointers rotated
      -- into layer space, then composited onto the layer buffer
      { s with layerWrites := s.layerWrites + 1
             , brush := { s.brush with pointers := rotatePointerLists s.layer s.brush.pointers } }

/-- `storePaintState()`: without a pending paint state this is a no-op;
otherwise the pending timer is cleared and — while the brush is still
down — the commit is re-armed with a 1000 ms delay; only once the brush
is up is the "after" snapshot captured and the `spritePaint_` history
entry enqueued (owning both snapshot resources). -/
def storePaintState (s : SpriteState) : SpriteState :=
  match s.pendingPaintState with
  | none => s
  | some tid =>
    let s := clearTimeoutOp tid s
    if s.brush.down then
      debouncePaintStore s 1000
    else
      let orgState := s.orgSourceToStore
      let s := { s with pendingPaintState := none, orgSourceToStore := none }
      { s with history := s.history ++ [HistoryEntry.spritePaint orgState s.nextSnapshotId]
             , nextSnapshotId := s.nextSnapshotId + 1 }

/-- `handleActiveTool( tool, toolOptions, activeDocument )`: resets the
interaction state, stores pending paint states, then configures the
sprite for the new tool. -/
def handleActiveTool (tool : Option Tool) (toolOptions : ToolOptions)
    (activeDocument : Document) (s : SpriteState) : SpriteState :=
  let s := { s with isDragging := false
                  , isPaintMode := false
                  , isDragMode := false
                  , isColorPicker := false
                  , selection := none
                  , toolType := none
                  , toolOptions := none
                  , cloneStartCoords := none }
  let s := storePaintState s
  if s.interactive = false ∨ tool = none then s
  else
    let s := { s with toolType := tool, toolOptions := some toolOptions }
    match tool with
    | some Tool.drag =>
        { s with isDragMode := true, draggable := true }
    | some Tool.fill | some Tool.eraser | some Tool.brush | some Tool.clone =>
        let s := forceMoveListener s
        let s := { s with draggable := true, isPaintMode := true }
        let s := cacheBrush toolOptions s
        setSelection activeDocument true s
    | some Tool.eyedropper =>
        { s with isColorPicker := true }
    | _ =>
        { s with draggable := false }

/-- `handlePress( x, y, { type })`.  The eyedropper branch reads a pixel
and commits the color to the store (no sprite-state effect tracked
here); the clone branch records the source anchor on the first press and
the destination start anchor on the second; the fill branch paints
instantly; every other paint-mode press records the brush pointer. -/
def handlePress (x y : Int) (touch : Bool) (s : SpriteState) : SpriteState :=
  let s := if touch then { s with pointerX := x, pointerY := y } else s
  if s.isColorPicker then
    s
  else if s.isPaintMode then
    if s.toolType = some Tool.clone then
      match s.toolOptions with
      | some o =>
        if o.coords = none then
          { s with toolOptions := some { o with coords := some ⟨x, y⟩ }
                 , cloneStartCoords := none }
        else if s.cloneStartCoords = none then
          storeBrushPointer x y { s with cloneStartCoords := some ⟨x, y⟩ }
        else
          storeBrushPointer x y s
      | none => s -- unreachable: paint mode always carries tool options
    else if s.toolType = some Tool.fill then
      paint s
    else
      storeBrushPointer x y s
  else if s.isDragMode then
    { s with draggingSprite := true }
  else
    s

/-- Modelled from the spec: `zCanvas.sprite.handleMove` (the `super`
call, source not included) performs the default direct drag — a
position-only adjustment of the sprite bounds from the drag start
offsets; it never touches the brush state, buffers or history. -/
def superHandleMove (x y : Int) (s : SpriteState) : SpriteState :=
  if s.isDragging then
    { s with boundsLeft := s.dragStartOffset.x + (x - s.dragStartEventCoordinates.x)
           , boundsTop := s.dragStartOffset.y + (y - s.dragStartEventCoordinates.y) }
  else s

/-- `handleMove( x, y, { type })`: outside paint mode either reposition
the mask (committing a `maskPos_` history entry) or defer to the default
drag behaviour (early return); while brushing, enqueue the pointer for
the next `update()` tick. -/
def handleMove (x y : Int) (touch : Bool) (s : SpriteState) : SpriteState :=
  let s := if !touch then { s with pointerX := x, pointerY := y } else s
  if s.isPaintMode = false ∧ s.actionTarget = ActionTarget.mask then
    let layer := s.layer
    let newMaskX := s.dragStartOffset.x + ((x - s.boundsLeft) - s.dragStartEventCoordinates.x)
    let newMaskY := s.dragStartOffset.y + ((y - s.boundsTop) - s.dragStartEventCoordinates.y)
    let s := { s with layer := { layer with maskX := newMaskX, maskY := newMaskY }
                    , history := s.history ++
                        [HistoryEntry.maskPos layer.maskX layer.maskY newMaskX newMaskY] }
    if s.brush.down then storeBrushPointer x y s else s
  else if s.isPaintMode = false ∧ s.isDragMode = true then
    superHandleMove x y s
  else
    if s.brush.down then storeBrushPointer x y s else s

/-- Modelled from the spec: `snapSpriteToGuide` (`@/rendering/snapping`,
source not included) snaps the sprite to the nearest alignment guide — a
position-only adjustment invoked at drag release. -/
def snapSpriteToGuide (s : SpriteState) : SpriteState :=
  { s with boundsLeft := s.guides.x, boundsTop := s.guides.y }

/-- `handleRelease( x, y )`: if brushing was active, dispose the low-res
preview, deactivate brushing, render the high resolution version of the
brushed path onto the layer source, reset the pointers and — unless the
`lowMemory` preference is set — immediately store the pending history
state; afterwards re-arm the move listener (paint mode) or finish the
drag, optionally snapping to a guide. -/
def handleRelease (s : SpriteState) : SpriteState :=
  let s :=
    if s.brush.down then
      let s := { s with tempCanvas := false }
      let s := { s with brush := { s.brush with down := false, last := 0 } }
      let s := paint s
      let s := { s with brush := { s.brush with pointers := [] } }
      if s.store.prefs.lowMemory = false then storePaintState s else s
    else s
  if s.isPaintMode then
    forceMoveListener s
  else if s.isDragMode then
    let s := if s.store.snapAlign then snapSpriteToGuide s else s
    { s with draggingSprite := false }
  else
    s

/-- Per-frame `update()`: while the brush is down, paint once and
advance the processed-sample counter to the current pointer count. -/
def update (s : SpriteState) : SpriteState :=
  if s.brush.down then
    let s := paint s
    { s with brush := { s.brush with last := s.brush.pointers.length } }
  else s

/-- The runtime elapsing of a live timer: the timer is removed from the
live set and its callback — always `storePaintState`, the only callback
ever scheduled by this sprite — runs. -/
def fireTimer (tid : Nat) (s : SpriteState) : SpriteState :=
  if s.liveTimers.any (fun t => t.1 == tid) then
    storePaintState { s with liveTimers := s.liveTimers.filter (fun t => t.1 != tid) }
  else s

/-- `setInteractive` (zCanvas), as driven by `handleActiveLayer`. -/
def setInteractive (value : Bool) (s : SpriteState) : SpriteState :=
  { s with interactive := value }

/-- `setActionTarget( target = "source" )`. -/
def setActionTarget (target : ActionTarget) (s : SpriteState) : SpriteState :=
  { s with actionTarget := target }

/-- The sprite state produced by the `LayerSprite` constructor for a
given layer and store: fresh brush (`BrushFactory.create()` with its
default radius of 10), `actionTarget` "source", no pending state. -/
def createLayerSprite (layer : Layer) (store : Store) : SpriteState :=
  { layer := layer
  , store := store
  , brush := brushFactoryCreate 10 []
  , interactive := false
  , draggable := false
  , isDragging := false
  , isPaintMode := false
  , isDragMode := false
  , isColorPicker := false
  , selection := none
  , invertSelection := false
  , toolType := none
  , toolOptions := none
  , cloneStartCoords := none
  , pendingPaintState := none
  , orgSourceToStore := none
  , tempCanvas := false
  , actionTarget := ActionTarget.source
  , pointerX := 0
  , pointerY := 0
  , boundsLeft := layer.left
  , boundsTop := layer.top
  , dragStartOffset := ⟨0, 0⟩
  , dragStartEventCoordinates := ⟨0, 0⟩
  , draggingSprite := false
  , guides := ⟨0, 0⟩
  , liveTimers := []
  , nextTimerId := 0
  , nextSnapshotId := 0
  , history := []
  , paintLog := []
  , layerWrites := 0
  , tempWrites := 0 }

/-! ### Save/restore trace of `paint()`

To settle the save/restore discipline claim, `paint()` is additionally
embedded as the sequence of `save`/`restore` calls it issues, tagged
with the drawing context they execute on: the layer (source or mask)
context (`org`), the low-resolution temp canvas context (`temp`), or the
scratch canvas created for the full-resolution pass (`scratch`).  The
trace follows the control flow of lines 269-364 of `layer-sprite.js`,
including the reassignments of the local `ctx` variable, which determine
the context the two trailing `restore()` calls execute on. -/

/-- The drawing contexts touched by `paint()`. -/
inductive CtxId where
  | org
  | temp
  | scratch
deriving DecidableEq, Repr

/-- A `save()` or `restore()` call on a specific drawing context. -/
inductive CtxEvent where
  | save (c : CtxId)
  | restore (c : CtxId)
deriving DecidableEq, Repr

/-- The inputs that steer the control flow of `paint()` as far as
`save`/`restore` calls are concerned. -/
structure PaintCfg where
  tool : Tool
  brushDown : Bool
  drawOnMask : Bool
  hasSelection : Bool
  optActionStroke : Bool
deriving DecidableEq, Repr

/-- The sequence of context `save`/`restore` calls issued by one
execution of `paint()`:

* `ctx.save()` (preparation) on the layer context;
* when a selection applies, `ctx.save()` (clipping) — still on the layer
  context;
* in the low-res brush/eraser branch, `ctx` is reassigned to the temp
  canvas context, `ctx.save()` (temp clipping) when a selection applies,
  and after rendering `orgContext.restore()`;
* in the full-resolution brush/eraser branch `ctx` is reassigned to a
  scratch canvas and, after compositing, back to the layer context;
* finally `ctx.restore()` (clipping, when a selection applies) and
  `ctx.restore()` (preparation) execute on whatever context `ctx`
  designates at that point. -/
def paintCtxTrace (cfg : PaintCfg) : List CtxEvent :=
  let isEraser := cfg.tool == Tool.eraser
  let isCloneStamp := cfg.tool == Tool.clone
  let isFillMode := cfg.tool == Tool.fill
  let isLowResPreview := cfg.brushDown && !(cfg.drawOnMask && isEraser)
  let prep := [CtxEvent.save CtxId.org]
  let clip := if cfg.hasSelection then [CtxEvent.save CtxId.org] else []
  -- tool dispatch: events issued by the body, and the context the local
  -- variable ctx designates afterwards
  let body : List CtxEvent × CtxId :=
    if cfg.optActionStroke then ([], CtxId.org)
    else if isFillMode then ([], CtxId.org)
    else if isCloneStamp then ([], CtxId.org)
    else if isLowResPreview then
      -- ctx := tempCanvas.ctx (tempCanvas now non-null)
      let tempClip := if cfg.hasSelection then [CtxEvent.save CtxId.temp] else []
      let after := if cfg.hasSelection then [CtxEvent.restore CtxId.org] else []
      (tempClip ++ after, CtxId.temp)
    else
      -- ctx := scratch canvas; after compositing, ctx := orgContext
      ([], CtxId.org)
  prep ++ clip ++ body.1 ++
    (if cfg.hasSelection then [CtxEvent.restore body.2] else []) ++
    [CtxEvent.restore body.2]

/-- Runs a trace against one context: `true` when every `restore` on
that context matches an earlier unmatched `save` on it (never restoring
an empty state stack) and every `save` is eventually restored — i.e. the
per-context discipline the spec demands. -/
def ctxBalancedAux (c : CtxId) : List CtxEvent → Nat → Bool
  | [], depth => depth == 0
  | CtxEvent.save c1 :: rest, depth =>
      if c1 = c then ctxBalancedAux c rest (depth + 1) else ctxBalancedAux c rest depth
  | CtxEvent.restore c1 :: rest, depth =>
      if c1 = c then
        match depth with
        | 0 => false
        | d + 1 => ctxBalancedAux c rest d
      else ctxBalancedAux c rest depth

/-- Whether the save/restore calls on context `c` are balanced. -/
def ctxBalanced (c : CtxId) (trace : List CtxEvent) : Bool :=
  ctxBalancedAux c trace 0

/-! ### image-math (`src/math/image-math.js`, `src/math/unit-math.js`)

`constrain` divides square roots, so it is embedded over the real
numbers — the exact idealisation of the JS double arithmetic; the
counterexample below is robust, every quantity involved being well clear
of the rounding boundaries of `Float64`.  `scaleToRatio` is purely
rational and embedded over `ℚ`. -/

/-- `fastRound` from `unit-math.js`: `num > 0 ? (num + .5) << 0 : num | 0`.
For positive input, `(num + .5) << 0` truncates `num + 0.5` toward zero,
i.e. takes its floor; otherwise `num | 0` truncates toward zero, i.e.
takes the ceiling of a non-positive number.  (The 32-bit wrap-around of
the JS bitwise conversion is not modelled; all inputs considered are far
below 2^31.) -/
noncomputable def fastRound (num : ℝ) : ℤ :=
  if 0 < num then ⌊num + 1 / 2⌋ else ⌈num⌉

/-- `constrain( width, height, maxMegaPixel )` from `image-math.js`:
when `width * height` exceeds the budget, both sides are scaled by
`sqrt(maxMegaPixel) / sqrt(megaPixel)` and rounded through `fastRound`. -/
noncomputable def constrain (width height maxMegaPixel : ℝ) : ℝ × ℝ :=
  let megaPixel := width * height
  if maxMegaPixel < megaPixel then
    let ratio := Real.sqrt maxMegaPixel / Real.sqrt megaPixel
    (((fastRound (width * ratio) : ℤ) : ℝ), ((fastRound (height * ratio) : ℤ) : ℝ))
  else
    (width, height)

/-- `scaleToRatio( imageWidth, imageHeight, destWidth, destHeight )`
from `image-math.js`, with the three aspect branches and the subsequent
cover adjustment transcribed literally (the first two branches compute
the same expression, as in the source). -/
def scaleToRatio (imageWidth imageHeight destWidth destHeight : ℚ) : ℚ × ℚ :=
  let height :=
    if imageHeight < imageWidth then destWidth * (imageHeight / imageWidth)
    else if imageWidth < imageHeight then destWidth * (imageHeight / imageWidth)
    else destWidth
  if height < destHeight then
    (destWidth * (destHeight / height), destHeight)
  else
    (destWidth, height)

/-! ### Reachability and the pending-timer invariant -/

/-- Folds a burst of pointer-move events (as delivered between two
frame ticks) over the sprite state. -/
def applyMoves (ms : List (Int × Int)) (s : SpriteState) : SpriteState :=
  ms.foldl (fun t m => handleMove m.1 m.2 false t) s

/-- The pending-timer bookkeeping invariant: without a pending paint
state no debounce timer is live, and with one exactly the timer whose
handle is stored in `_pendingPaintState` is live. -/
def TimerInv (s : SpriteState) : Prop :=
  match s.pendingPaintState with
  | none => s.liveTimers = []
  | some i => ∃ d, s.liveTimers = [(i, d)]

/-- The sprite states reachable from a freshly constructed
`LayerSprite` under the operations the surrounding application drives:
tool activation, pointer press/move/release, the per-frame update, a
direct `paint()` call, the elapsing of a scheduled debounce timer, and
the zCanvas-level `setInteractive` / `setActionTarget` setters. -/
inductive Reachable : SpriteState → Prop where
  | init (layer : Layer) (store : Store) : Reachable (createLayerSprite layer store)
  | activeTool (tool : Option Tool) (toolOptions : ToolOptions) (doc : Document)
      {s : SpriteState} : Reachable s → Reachable (handleActiveTool tool toolOptions doc s)
  | press (x y : Int) (touch : Bool) {s : SpriteState} :
      Reachable s → Reachable (handlePress x y touch s)
  | move (x y : Int) (touch : Bool) {s : SpriteState} :
      Reachable s → Reachable (handleMove x y touch s)
  | release {s : SpriteState} : Reachable s → Reachable (handleRelease s)
  | frame {s : SpriteState} : Reachable s → Reachable (update s)
  | paintCall {s : SpriteState} : Reachable s → Reachable (paint s)
  | timer (tid : Nat) {s : SpriteState} : Reachable s → Reachable (fireTimer tid s)
  | interactivity (value : Bool) {s : SpriteState} :
      Reachable s → Reachable (setInteractive value s)
  | target (t : ActionTarget) {s : SpriteState} :
      Reachable s → Reachable (setActionTarget t s)

/-! ### Concrete fixtures used by witnesses and counterexamples -/

/-- A plain graphic layer at the origin, no mask. -/
def exLayer : Layer :=
  { left := 0, top := 0, maskX := 0, maskY := 0, hasMask := false, canDrawWhenSelected := true }

/-- Default preferences (`lowMemory` off). -/
def exPrefs : Preferences :=
  { lowMemory := false, wasmFilters := false, snapAlign := false, antiAlias := true }

/-- A store with default preferences, no snapping, no active mask. -/
def exStore : Store :=
  { prefs := exPrefs, snapAlign := false, activeMaskMatches := false }

/-- Brush tool options with no clone source anchor recorded. -/
def exOpts : ToolOptions :=
  { size := 5, coords := none, smartFill := false, sourceLayerId := 0 }

/-- A document without a selection. -/
def exDoc : Document :=
  { selection := [], invertSelection := false }

/-- A freshly constructed sprite over the fixture layer and store. -/
def baseSprite : SpriteState := createLayerSprite exLayer exStore

/-- A sprite mid-stroke with the brush tool: interactive, paint mode,
brush down with one recorded sample, a pending debounced commit (timer
handle 0, 5000 ms) and a captured before-snapshot. -/
def midStrokeSprite : SpriteState :=
  { baseSprite with
      interactive := true
    , isPaintMode := true
    , isDragging := true
    , toolType := some Tool.brush
    , toolOptions := some exOpts
    , brush := { down := true, pointers := [⟨3, 4⟩], last := 0, radius := 5 }
    , pendingPaintState := some 0
    , liveTimers := [(0, 5000)]
    , orgSourceToStore := some 0
    , nextSnapshotId := 1
    , nextTimerId := 1 }

/-- The state reached from `midStrokeSprite` by activating the drag
tool mid-stroke: `handleActiveTool` never clears the brush "down" flag
(the drag branch does not call `cacheBrush`), so the sprite is in drag
mode while `down` is still `true`. -/
def dragModeMidStroke : SpriteState :=
  handleActiveTool (some Tool.drag) exOpts exDoc midStrokeSprite

/-- The low-res brush configuration of `paint()`: brush held down
(low-resolution preview), drawing on the source buffer, with an active
selection. -/
def cfgLowResSel : PaintCfg :=
  { tool := Tool.brush, brushDown := true, drawOnMask := false
  , hasSelection := true, optActionStroke := false }

/-- As `cfgLowResSel` but without a selection. -/
def cfgLowResNoSel : PaintCfg :=
  { cfgLowResSel with hasSelection := false }

/-- A sprite mid-stroke with the brush tool and no pending commit yet:
two recorded samples of which one has been processed. -/
def strokeSprite : SpriteState :=
  { baseSprite with
      interactive := true
    , isPaintMode := true
    , isDragging := true
    , toolType := some Tool.brush
    , toolOptions := some exOpts
    , brush := { down := true, pointers := [⟨1, 1⟩, ⟨2, 2⟩], last := 1, radius := 5 } }

/-- A sprite in drag mode with guide snapping enabled. -/
def dragSnapSprite : SpriteState :=
  { baseSprite with
      isDragMode := true
    , draggingSprite := true
    , store := { exStore with snapAlign := true }
    , guides := ⟨7, 9⟩ }

/-- A sprite with the clone tool armed and no source anchor recorded. -/
def cloneSprite : SpriteState :=
  { baseSprite with
      interactive := true
    , isPaintMode := true
    , toolType := some Tool.clone
    , toolOptions := some exOpts }

/-! ## Helper lemmas

Field-tracking lemmas for `paint` and `storePaintState`, used to settle
the interaction-state claims. -/

theorem paint_paintLog (s : SpriteState) :
    (paint s).paintLog = s.paintLog ++
      [⟨s.brush.down && !(isMaskable s && (s.toolType == some Tool.eraser)),
        s.brush.last, s.brush.pointers.length⟩] := by
  simp only [paint, preparePendingPaintState, debouncePaintStore]
  split <;> split_ifs <;> rfl

theorem paint_history (s : SpriteState) : (paint s).history = s.history := by
  simp only [paint, preparePendingPaintState, debouncePaintStore]
  split <;> split_ifs <;> rfl

theorem paint_brush_down (s : SpriteState) : (paint s).brush.down = s.brush.down := by
  simp only [paint, preparePendingPaintState, debouncePaintStore]
  split <;> split_ifs <;> rfl

theorem paint_brush_last (s : SpriteState) : (paint s).brush.last = s.brush.last := by
  simp only [paint, preparePendingPaintState, debouncePaintStore]
  split <;> split_ifs <;> rfl

theorem paint_store (s : SpriteState) : (paint s).store = s.store := by
  simp only [paint, preparePendingPaintState, debouncePaintStore]
  split <;> split_ifs <;> rfl

theorem paint_flags (s : SpriteState) :
    (paint s).isPaintMode = s.isPaintMode ∧ (paint s).isDragMode = s.isDragMode := by
  simp only [paint, preparePendingPaintState, debouncePaintStore]
  split <;> split_ifs <;> exact ⟨rfl, rfl⟩

theorem paint_pending_of_none (s : SpriteState) (h : s.pendingPaintState = none) :
    (paint s).pendingPaintState = some s.nextTimerId ∧
    (paint s).liveTimers = s.liveTimers ++ [(s.nextTimerId, 5000)] := by
  simp only [paint, preparePendingPaintState, debouncePaintStore, h, if_true, reduceCtorEq]
  split_ifs <;> simp

theorem paint_pending_of_some (s : SpriteState) (i : Nat)
    (h : s.pendingPaintState = some i) :
    (paint s).pendingPaintState = some i ∧ (paint s).liveTimers = s.liveTimers := by
  simp only [paint, preparePendingPaintState, debouncePaintStore, h, reduceCtorEq, if_false]
  split_ifs <;> simp

theorem paint_pending_isSome (s : SpriteState) :
    (paint s).pendingPaintState.isSome = true := by
  cases hp : s.pendingPaintState with
  | none => simp [(paint_pending_of_none s hp).1]
  | some i => simp [(paint_pending_of_some s i hp).1]

theorem storePaintState_of_none (s : SpriteState) (h : s.pendingPaintState = none) :
    storePaintState s = s := by
  simp only [storePaintState, h]

theorem storePaintState_of_down (s : SpriteState) (i : Nat)
    (hp : s.pendingPaintState = some i) (hd : s.brush.down = true) :
    (storePaintState s).history = s.history ∧
    (storePaintState s).nextSnapshotId = s.nextSnapshotId ∧
    (storePaintState s).orgSourceToStore = s.orgSourceToStore ∧
    (storePaintState s).pendingPaintState = some s.nextTimerId ∧
    (s.nextTimerId, 1000) ∈ (storePaintState s).liveTimers ∧
    (storePaintState s).brush = s.brush := by
  simp only [storePaintState, clearTimeoutOp, debouncePaintStore, hp, hd]
  simp

theorem storePaintState_of_up (s : SpriteState) (i : Nat)
    (hp : s.pendingPaintState = some i) (hd : s.brush.down = false) :
    (storePaintState s).history
      = s.history ++ [HistoryEntry.spritePaint s.orgSourceToStore s.nextSnapshotId] ∧
    (storePaintState s).pendingPaintState = none ∧
    (storePaintState s).orgSourceToStore = none ∧
    (storePaintState s).brush = s.brush := by
  simp only [storePaintState, clearTimeoutOp, debouncePaintStore, hp, hd]
  simp

theorem storePaintState_history_ne (s : SpriteState)
    (h : (storePaintState s).history ≠ s.history) : s.brush.down = false := by
  by_contra hd
  rw [Bool.not_eq_false] at hd
  cases hp : s.pendingPaintState with
  | none => exact h (by rw [storePaintState_of_none s hp])
  | some i => exact h (storePaintState_of_down s i hp hd).1

/-- When the brush is not down, `paint` runs a full-resolution pass and
never touches the low-res temp canvas. -/
theorem paint_tempCanvas_of_up (s : SpriteState) (h : s.brush.down = false) :
    (paint s).tempCanvas = s.tempCanvas := by
  cases hp : s.pendingPaintState <;>
  · simp only [paint, preparePendingPaintState, debouncePaintStore, hp, h, Bool.false_and,
      reduceCtorEq, if_false, if_true]
    split_ifs <;> (first | contradiction | rfl)

/-- `storePaintState` touches only the commit bookkeeping fields. -/
theorem storePaintState_preserves (s : SpriteState) :
    (storePaintState s).tempCanvas = s.tempCanvas ∧
    (storePaintState s).paintLog = s.paintLog ∧
    (storePaintState s).store = s.store ∧
    (storePaintState s).isPaintMode = s.isPaintMode ∧
    (storePaintState s).isDragMode = s.isDragMode ∧
    (storePaintState s).brush = s.brush := by
  simp only [storePaintState, clearTimeoutOp, debouncePaintStore]
  split <;> (try split_ifs) <;> exact ⟨rfl, rfl, rfl, rfl, rfl, rfl⟩

/-- A pointer-move while stroking in paint mode appends exactly one
sample and leaves every raster and history observable untouched. -/
theorem handleMove_paintMode_step (s : SpriteState) (x y : Int) (touch : Bool)
    (hd : s.brush.down = true) (hpm : s.isPaintMode = true) :
    (handleMove x y touch s).brush.pointers = s.brush.pointers ++ [⟨x, y⟩] ∧
    (handleMove x y touch s).brush.down = true ∧
    (handleMove x y touch s).isPaintMode = true ∧
    (handleMove x y touch s).brush.last = s.brush.last ∧
    (handleMove x y touch s).paintLog = s.paintLog ∧
    (handleMove x y touch s).layerWrites = s.layerWrites ∧
    (handleMove x y touch s).tempWrites = s.tempWrites ∧
    (handleMove x y touch s).history = s.history := by
  cases touch <;> simp [handleMove, storeBrushPointer, hd, hpm]

/-- Transport of the pending-timer invariant along an equality of the
two timer-bookkeeping fields. -/
theorem TimerInv.of_eq {s t : SpriteState} (h : TimerInv s)
    (hp : t.pendingPaintState = s.pendingPaintState) (hl : t.liveTimers = s.liveTimers) :
    TimerInv t := by
  unfold TimerInv at h ⊢
  rw [hp, hl]
  exact h

/-- The pending-timer invariant bounds the number of live timers by one. -/
theorem timerInv_liveTimers_le (s : SpriteState) (h : TimerInv s) :
    s.liveTimers.length ≤ 1 := by
  unfold TimerInv at h
  cases hp : s.pendingPaintState with
  | none => rw [hp] at h; simp [h]
  | some i => rw [hp] at h; obtain ⟨d, hd⟩ := h; simp [hd]

/-- Arming the debounce on a state with no live timer restores the
invariant. -/
theorem timerInv_debounce (s : SpriteState) (t : Nat) (h : s.liveTimers = []) :
    TimerInv (debouncePaintStore s t) := by
  unfold TimerInv debouncePaintStore
  simp [h]

/-- `storePaintState` preserves the invariant when clearing the pending
timer empties the live set. -/
theorem timerInv_store_of_clear (s : SpriteState) (i : Nat)
    (hp : s.pendingPaintState = some i)
    (hl : s.liveTimers.filter (fun t => t.1 != i) = []) :
    TimerInv (storePaintState s) := by
  simp only [storePaintState, clearTimeoutOp, hp]
  split_ifs with hd
  · exact timerInv_debounce _ 1000 hl
  · unfold TimerInv
    simp [hl]

/-- `storePaintState` preserves the pending-timer invariant. -/
theorem timerInv_storePaintState (s : SpriteState) (h : TimerInv s) :
    TimerInv (storePaintState s) := by
  cases hp : s.pendingPaintState with
  | none => rw [storePaintState_of_none s hp]; exact h
  | some i =>
      have hl : s.liveTimers.filter (fun t => t.1 != i) = [] := by
        unfold TimerInv at h
        rw [hp] at h
        obtain ⟨d, hd⟩ := h
        simp [hd]
      exact timerInv_store_of_clear s i hp hl

/-- `paint` preserves the pending-timer invariant: it only arms a timer
when no pending paint state exists. -/
theorem timerInv_paint (s : SpriteState) (h : TimerInv s) : TimerInv (paint s) := by
  cases hp : s.pendingPaintState with
  | some i =>
      obtain ⟨h1, h2⟩ := paint_pending_of_some s i hp
      unfold TimerInv
      rw [h1, h2]
      unfold TimerInv at h
      rw [hp] at h
      exact h
  | none =>
      obtain ⟨h1, h2⟩ := paint_pending_of_none s hp
      have hl : s.liveTimers = [] := by unfold TimerInv at h; rw [hp] at h; exact h
      unfold TimerInv
      rw [h1, h2, hl]
      exact ⟨5000, rfl⟩

/-- The elapsing of a timer preserves the pending-timer invariant. -/
theorem timerInv_fireTimer (tid : Nat) (s : SpriteState) (h : TimerInv s) :
    TimerInv (fireTimer tid s) := by
  cases hp : s.pendingPaintState with
  | none =>
      have hl : s.liveTimers = [] := by unfold TimerInv at h; rw [hp] at h; exact h
      unfold fireTimer
      split_ifs with hmem
      · have hpt : (SpriteState.pendingPaintState
            { s with liveTimers := s.liveTimers.filter (fun t => t.1 != tid) }) = none := hp
        rw [storePaintState_of_none _ hpt]
        unfold TimerInv
        rw [hpt]
        simp [hl]
      · exact h
  | some i =>
      obtain ⟨d, hd⟩ : ∃ d, s.liveTimers = [(i, d)] := by
        unfold TimerInv at h; rw [hp] at h; exact h
      unfold fireTimer
      split_ifs with hmem
      · have htid : i = tid := by
          rw [hd] at hmem
          simpa using hmem
        have hpt : (SpriteState.pendingPaintState
            { s with liveTimers := s.liveTimers.filter (fun t => t.1 != tid) }) = some i := hp
        apply timerInv_store_of_clear _ i hpt
        show (s.liveTimers.filter (fun t => t.1 != tid)).filter (fun t => t.1 != i) = []
        rw [hd, htid]
        simp
      · exact h

/-- Tool activation preserves the pending-timer invariant. -/
theorem timerInv_handleActiveTool (tool : Option Tool) (o : ToolOptions) (doc : Document)
    (s : SpriteState) (h : TimerInv s) : TimerInv (handleActiveTool tool o doc s) := by
  have h1 : TimerInv (storePaintState
      { s with isDragging := false, isPaintMode := false, isDragMode := false,
               isColorPicker := false, selection := none, toolType := none,
               toolOptions := none, cloneStartCoords := none }) :=
    timerInv_storePaintState _ (TimerInv.of_eq h rfl rfl)
  simp only [handleActiveTool]
  split_ifs
  · exact h1
  · split <;> exact TimerInv.of_eq h1 rfl rfl

/-- A pointer press preserves the pending-timer invariant. -/
theorem timerInv_handlePress (x y : Int) (touch : Bool) (s : SpriteState)
    (h : TimerInv s) : TimerInv (handlePress x y touch s) := by
  have h0 : ∀ t : SpriteState, t.pendingPaintState = s.pendingPaintState →
      t.liveTimers = s.liveTimers → TimerInv t := fun t hp hl => TimerInv.of_eq h hp hl
  simp only [handlePress, storeBrushPointer]
  split_ifs <;> (try split) <;> (try split_ifs) <;>
    first
    | exact h0 _ rfl rfl
    | exact timerInv_paint _ (h0 _ rfl rfl)

/-- A pointer move preserves the pending-timer invariant. -/
theorem timerInv_handleMove (x y : Int) (touch : Bool) (s : SpriteState)
    (h : TimerInv s) : TimerInv (handleMove x y touch s) := by
  have h0 : ∀ t : SpriteState, t.pendingPaintState = s.pendingPaintState →
      t.liveTimers = s.liveTimers → TimerInv t := fun t hp hl => TimerInv.of_eq h hp hl
  simp only [handleMove, superHandleMove, storeBrushPointer]
  split_ifs <;> exact h0 _ rfl rfl

/-- The per-frame update preserves the pending-timer invariant. -/
theorem timerInv_update (s : SpriteState) (h : TimerInv s) : TimerInv (update s) := by
  simp only [update]
  split_ifs
  · exact TimerInv.of_eq (timerInv_paint s h) rfl rfl
  · exact h

/-- Clearing the recorded pointers preserves the invariant. -/
theorem timerInv_clearPointers (t : SpriteState) (h : TimerInv t) :
    TimerInv { t with brush := { t.brush with pointers := [] } } :=
  TimerInv.of_eq h rfl rfl

/-- Committing after clearing the recorded pointers preserves the
invariant. -/
theorem timerInv_storeCleared (t : SpriteState) (h : TimerInv t) :
    TimerInv (storePaintState { t with brush := { t.brush with pointers := [] } }) :=
  timerInv_storePaintState _ (timerInv_clearPointers t h)

/-- A pointer release preserves the pending-timer invariant. -/
theorem timerInv_handleRelease (s : SpriteState) (h : TimerInv s) :
    TimerInv (handleRelease s) := by
  have hpaint : TimerInv (paint
      { s with tempCanvas := false, brush := { s.brush with down := false, last := 0 } }) :=
    timerInv_paint _ (TimerInv.of_eq h rfl rfl)
  simp only [handleRelease, forceMoveListener, snapSpriteToGuide]
  split_ifs <;>
    first
    | exact TimerInv.of_eq h rfl rfl
    | exact TimerInv.of_eq (timerInv_clearPointers _ hpaint) rfl rfl
    | exact TimerInv.of_eq (timerInv_storeCleared _ hpaint) rfl rfl

/-- A freshly constructed sprite satisfies the pending-timer invariant. -/
theorem timerInv_createLayerSprite (layer : Layer) (store : Store) :
    TimerInv (createLayerSprite layer store) := by
  unfold TimerInv createLayerSprite
  rfl

/-- Every reachable sprite state satisfies the pending-timer invariant. -/
theorem timerInv_reachable (s : SpriteState) (h : Reachable s) : TimerInv s := by
  induction h with
  | init layer store => exact timerInv_createLayerSprite layer store
  | activeTool tool o doc _ ih => exact timerInv_handleActiveTool tool o doc _ ih
  | press x y touch _ ih => exact timerInv_handlePress x y touch _ ih
  | move x y touch _ ih => exact timerInv_handleMove x y touch _ ih
  | release _ ih => exact timerInv_handleRelease _ ih
  | frame _ ih => exact timerInv_update _ ih
  | paintCall _ ih => exact timerInv_paint _ ih
  | timer tid _ ih => exact timerInv_fireTimer tid _ ih
  | interactivity value _ ih => exact TimerInv.of_eq ih rfl rfl
  | target t _ ih => exact TimerInv.of_eq ih rfl rfl

/-! ## Claim theorems -/

/-- C1 (counterexample): at a concrete state with a pending debounced
snapshot commit and the brush still down mid-stroke, `handleActiveTool`
produces NO history entry (the history stays empty) — it re-arms the
commit with timer handle 1 instead — refuting the claim that the
pending snapshot commit is flushed synchronously (a history entry
produced) during tool activation even mid-stroke. -/
theorem handleActiveTool_midstroke_no_flush_cex :
    midStrokeSprite.pendingPaintState.isSome = true ∧
    midStrokeSprite.brush.down = true ∧
    midStrokeSprite.history = [] ∧
    (handleActiveTool (some Tool.brush) exOpts exDoc midStrokeSprite).history = [] ∧
    (handleActiveTool (some Tool.brush) exOpts exDoc midStrokeSprite).pendingPaintState
      = some 1 := by
  decide

/-- C1 (amended): when a tool activation occurs while a pending
debounced snapshot commit exists, `storePaintState` is invoked during
the activation: if the brush is not down, the pending commit is
performed immediately (exactly one history entry is enqueued and the
pending timer cleared); if the brush is still down mid-stroke, the
commit is not flushed but re-armed with a 1-second delay, and the
captured before-snapshot is retained, so no buffer mutation of the
interrupted stroke is lost from history. -/
theorem handleActiveTool_pending_commit_policy
    (tool : Option Tool) (o : ToolOptions) (doc : Document) (s : SpriteState)
    (hp : s.pendingPaintState.isSome = true) :
    (s.brush.down = false →
       (handleActiveTool tool o doc s).history
         = s.history ++ [HistoryEntry.spritePaint s.orgSourceToStore s.nextSnapshotId] ∧
       (handleActiveTool tool o doc s).pendingPaintState = none) ∧
    (s.brush.down = true →
       (handleActiveTool tool o doc s).history = s.history ∧
       (handleActiveTool tool o doc s).pendingPaintState = some s.nextTimerId ∧
       (s.nextTimerId, 1000) ∈ (handleActiveTool tool o doc s).liveTimers ∧
       (handleActiveTool tool o doc s).orgSourceToStore = s.orgSourceToStore) := by
  obtain ⟨i, hi⟩ := Option.isSome_iff_exists.mp hp
  constructor <;> intro hd <;>
  · simp only [handleActiveTool, storePaintState, clearTimeoutOp, debouncePaintStore,
      forceMoveListener, cacheBrush, setSelection, brushFactoryCreate, hi, hd]
    split_ifs <;> (try contradiction) <;> (try rcases tool with _ | t) <;> (try cases t) <;> simp

/-- C1 (witness): the amended policy applied at the concrete mid-stroke
state: history unchanged and the before-snapshot retained. -/
theorem handleActiveTool_pending_commit_policy_witness :
    midStrokeSprite.pendingPaintState.isSome = true ∧
    midStrokeSprite.brush.down = true ∧
    (handleActiveTool (some Tool.brush) exOpts exDoc midStrokeSprite).history
      = midStrokeSprite.history ∧
    (handleActiveTool (some Tool.brush) exOpts exDoc midStrokeSprite).orgSourceToStore
      = midStrokeSprite.orgSourceToStore :=
  ⟨by decide, by decide,
   ((handleActiveTool_pending_commit_policy (some Tool.brush) exOpts exDoc midStrokeSprite
      (by decide)).2 (by decide)).1,
   ((handleActiveTool_pending_commit_policy (some Tool.brush) exOpts exDoc midStrokeSprite
      (by decide)).2 (by decide)).2.2.2⟩

/-- C2: for every sprite whose brush state has `down = false`,
`handleRelease` performs no write to the layer pixel buffers, no write
to the preview buffer, enqueues no history entry, and invokes no paint
pass — regardless of paint mode, drag mode, or snap-to-guide. -/
theorem handleRelease_no_stroke_noop (s : SpriteState) (h : s.brush.down = false) :
    (handleRelease s).layerWrites = s.layerWrites ∧
    (handleRelease s).tempWrites = s.tempWrites ∧
    (handleRelease s).history = s.history ∧
    (handleRelease s).paintLog = s.paintLog := by
  simp only [handleRelease, h, forceMoveListener, snapSpriteToGuide]
  split_ifs <;> first | contradiction | simp

/-- C2 (witness): idempotent release at a drag-mode sprite with guide
snapping enabled. -/
theorem handleRelease_no_stroke_noop_witness :
    dragSnapSprite.brush.down = false ∧
    (handleRelease dragSnapSprite).layerWrites = dragSnapSprite.layerWrites ∧
    (handleRelease dragSnapSprite).history = dragSnapSprite.history :=
  ⟨by decide,
   (handleRelease_no_stroke_noop dragSnapSprite (by decide)).1,
   (handleRelease_no_stroke_noop dragSnapSprite (by decide)).2.2.1⟩

/-- C3: for every sprite whose brush state has `down = true`,
`handleRelease` discards the low-res preview buffer, clears the down
flag, performs exactly one full-resolution paint pass over the entire
recorded pointer path (`last` reset to 0 before painting), clears the
pointer sequence, and — if and only if the `lowMemory` preference is not
active — immediately forces the debounced snapshot commit (one history
entry, pending state cleared); under `lowMemory` the commit stays
armed. -/
theorem handleRelease_active_stroke_commit (s : SpriteState) (h : s.brush.down = true) :
    (handleRelease s).tempCanvas = false ∧
    (handleRelease s).brush.down = false ∧
    (handleRelease s).brush.pointers = [] ∧
    (handleRelease s).paintLog = s.paintLog ++ [⟨false, 0, s.brush.pointers.length⟩] ∧
    (s.store.prefs.lowMemory = false →
       (handleRelease s).history.length = s.history.length + 1 ∧
       (handleRelease s).pendingPaintState = none) ∧
    (s.store.prefs.lowMemory = true →
       (handleRelease s).history = s.history ∧
       (handleRelease s).pendingPaintState.isSome = true) := by
  simp only [handleRelease, h]
  set s1 : SpriteState :=
    { s with tempCanvas := false, brush := { s.brush with down := false, last := 0 } } with hs1
  set s2 := paint s1 with hs2
  have e1 : s2.brush.down = false := by rw [hs2, paint_brush_down]
  have e2 : s2.paintLog = s.paintLog ++ [⟨false, 0, s.brush.pointers.length⟩] := by
    rw [hs2, paint_paintLog]; rfl
  have e3 : s2.history = s.history := by rw [hs2, paint_history]
  have e4 : s2.store = s.store := by rw [hs2, paint_store]
  have e5 : s2.tempCanvas = false := by rw [hs2, paint_tempCanvas_of_up s1 rfl]
  have e6 : s2.pendingPaintState.isSome = true := by rw [hs2]; exact paint_pending_isSome s1
  have e7 := paint_flags s1
  rw [← hs2] at e7
  obtain ⟨i, hi⟩ := Option.isSome_iff_exists.mp e6
  have hi3 : (SpriteState.pendingPaintState
      { s2 with brush := { s2.brush with pointers := [] } }) = some i := hi
  have e8 : (SpriteState.brush { s2 with brush := { s2.brush with pointers := [] } }).down
      = false := e1
  obtain ⟨f1, f2, f3, f4⟩ :=
    storePaintState_of_up { s2 with brush := { s2.brush with pointers := [] } } i hi3 e8
  obtain ⟨p1, p2, p3, p4, p5, p6⟩ :=
    storePaintState_preserves { s2 with brush := { s2.brush with pointers := [] } }
  cases hlm : s.store.prefs.lowMemory <;>
    simp only [e4, hlm, Bool.false_eq_true, if_true, if_false, reduceIte] <;>
    split_ifs <;>
    simp_all [forceMoveListener, snapSpriteToGuide]

/-- C3 (witness): the release commit at a concrete mid-stroke sprite
with default preferences. -/
theorem handleRelease_active_stroke_commit_witness :
    strokeSprite.brush.down = true ∧
    strokeSprite.store.prefs.lowMemory = false ∧
    (handleRelease strokeSprite).brush.pointers = [] ∧
    (handleRelease strokeSprite).paintLog
      = strokeSprite.paintLog ++ [⟨false, 0, strokeSprite.brush.pointers.length⟩] ∧
    (handleRelease strokeSprite).history.length = strokeSprite.history.length + 1 :=
  ⟨by decide, by decide,
   (handleRelease_active_stroke_commit strokeSprite (by decide)).2.2.1,
   (handleRelease_active_stroke_commit strokeSprite (by decide)).2.2.2.1,
   ((handleRelease_active_stroke_commit strokeSprite (by decide)).2.2.2.2.1 (by decide)).1⟩

/-- C4: the debounced snapshot commit is first armed with a 5000 ms
delay (by `paint` when no pending state exists); whenever the commit
procedure runs while the brush is still down it enqueues no history
entry, captures no "after" snapshot (the snapshot counter is untouched)
and re-arms itself with a 1000 ms delay; and whenever the commit
procedure changes the history, the brush was up — a final commit never
happens before the stroke has ended. -/
theorem debounced_commit_schedule (s : SpriteState) :
    (s.pendingPaintState = none →
       (paint s).pendingPaintState = some s.nextTimerId ∧
       (s.nextTimerId, 5000) ∈ (paint s).liveTimers) ∧
    (s.brush.down = true → ∀ i, s.pendingPaintState = some i →
       (storePaintState s).history = s.history ∧
       (storePaintState s).nextSnapshotId = s.nextSnapshotId ∧
       (storePaintState s).pendingPaintState = some s.nextTimerId ∧
       (s.nextTimerId, 1000) ∈ (storePaintState s).liveTimers) ∧
    ((storePaintState s).history ≠ s.history → s.brush.down = false) := by
  refine ⟨fun h => ⟨(paint_pending_of_none s h).1, by rw [(paint_pending_of_none s h).2]; simp⟩,
    fun hd i hp => ?_, storePaintState_history_ne s⟩
  obtain ⟨a, b, c, d, e, f⟩ := storePaintState_of_down s i hp hd
  exact ⟨a, b, d, e⟩

/-- C4 (witness): the 5000 ms arming at a fresh sprite and the
no-capture re-arming at the concrete mid-stroke state. -/
theorem debounced_commit_schedule_witness :
    (baseSprite.pendingPaintState = none ∧
     (paint baseSprite).pendingPaintState = some baseSprite.nextTimerId) ∧
    (midStrokeSprite.brush.down = true ∧
     (storePaintState midStrokeSprite).history = midStrokeSprite.history) :=
  ⟨⟨by decide, ((debounced_commit_schedule baseSprite).1 (by decide)).1⟩,
   ⟨by decide, ((debounced_commit_schedule midStrokeSprite).2.1 (by decide) 0 (by decide)).1⟩⟩

/-- C5: in every sprite state reachable from construction under tool
activation, press/move/release, per-frame update, direct paint calls,
timer elapse and the zCanvas setters, at most one pending debounce
timer is live. -/
theorem pending_timer_unique (s : SpriteState) (h : Reachable s) :
    s.liveTimers.length ≤ 1 :=
  timerInv_liveTimers_le s (timerInv_reachable s h)

/-- C5 (witness): the bound at a concrete reachable state that has an
armed debounce timer (brush press followed by a frame update). -/
theorem pending_timer_unique_witness :
    (update (handlePress 1 1 false (handleActiveTool (some Tool.brush) exOpts exDoc
        (setInteractive true baseSprite)))).liveTimers.length ≤ 1 :=
  pending_timer_unique _
    (Reachable.frame (Reachable.press 1 1 false
      (Reachable.activeTool (some Tool.brush) exOpts exDoc
        (Reachable.interactivity true (Reachable.init exLayer exStore)))))

/-- C6 (counterexample): at a reachable state with the brush still down
after a mid-stroke switch to the drag tool, `handleMove` takes the
drag-mode early return and appends NO pointer sample — refuting the
claim that while `down = true` every `handleMove` call appends one
pointer sample. -/
theorem handleMove_drag_mode_skips_sample_cex :
    dragModeMidStroke.brush.down = true ∧
    dragModeMidStroke.isDragMode = true ∧
    dragModeMidStroke.isPaintMode = false ∧
    dragModeMidStroke.brush.pointers = [⟨3, 4⟩] ∧
    (handleMove 5 5 false dragModeMidStroke).brush.pointers
      = dragModeMidStroke.brush.pointers := by
  decide

/-- C6 (amended): while a stroke is active AND the sprite is in paint
mode, every `handleMove` appends exactly one pointer sample and
performs no raster write, no paint pass and no history write; the
per-frame `update`, when `down` is true, invokes the paint pass exactly
once and sets the `last` counter to the current sample count (and is the
identity when `down` is false); consequently any burst of N move events
followed by one frame update yields exactly one paint invocation. -/
theorem move_coalescing_per_frame (s : SpriteState) (x y : Int) (touch : Bool) :
    (s.brush.down = true → s.isPaintMode = true →
       (handleMove x y touch s).brush.pointers = s.brush.pointers ++ [⟨x, y⟩] ∧
       (handleMove x y touch s).brush.last = s.brush.last ∧
       (handleMove x y touch s).paintLog = s.paintLog ∧
       (handleMove x y touch s).layerWrites = s.layerWrites ∧
       (handleMove x y touch s).tempWrites = s.tempWrites ∧
       (handleMove x y touch s).history = s.history) ∧
    (s.brush.down = true →
       (update s).paintLog.length = s.paintLog.length + 1 ∧
       (update s).brush.last = (update s).brush.pointers.length) ∧
    (s.brush.down = false → update s = s) ∧
    (∀ ms : List (Int × Int), s.brush.down = true → s.isPaintMode = true →
       (update (applyMoves ms s)).paintLog.length = s.paintLog.length + 1) := by
  refine ⟨?_, ?_, ?_, ?_⟩
  · intro hd hpm
    obtain ⟨a, _, _, d, e, f, g, i⟩ := handleMove_paintMode_step s x y touch hd hpm
    exact ⟨a, d, e, f, g, i⟩
  · intro hd
    constructor
    · simp only [update, hd, if_true]
      simp [paint_paintLog]
    · simp only [update, hd, if_true]
  · intro hd
    simp [update, hd]
  · intro ms hd hpm
    induction ms generalizing s with
    | nil =>
        simp only [applyMoves, List.foldl_nil, update, hd, if_true]
        simp [paint_paintLog]
    | cons m rest ih =>
        obtain ⟨_, hdown, hpm2, _, hlog, _, _, _⟩ :=
          handleMove_paintMode_step s m.1 m.2 false hd hpm
        have : applyMoves (m :: rest) s = applyMoves rest (handleMove m.1 m.2 false s) := rfl
        rw [this, ih (handleMove m.1 m.2 false s) hdown hpm2, hlog]

/-- C6 (witness): one appended sample per move and one paint invocation
for a burst of three moves followed by a frame update, at a concrete
mid-stroke sprite. -/
theorem move_coalescing_per_frame_witness :
    (strokeSprite.brush.down = true ∧ strokeSprite.isPaintMode = true) ∧
    (handleMove 9 9 false strokeSprite).brush.pointers
      = strokeSprite.brush.pointers ++ [⟨9, 9⟩] ∧
    (update (applyMoves [(5, 5), (6, 6), (7, 7)] strokeSprite)).paintLog.length
      = strokeSprite.paintLog.length + 1 :=
  ⟨⟨by decide, by decide⟩,
   ((move_coalescing_per_frame strokeSprite 9 9 false).1 (by decide) (by decide)).1,
   (move_coalescing_per_frame strokeSprite 0 0 false).2.2.2
     [(5, 5), (6, 6), (7, 7)] (by decide) (by decide)⟩

/-- C7: with the clone tool in paint mode, a press with no recorded
source anchor stores the pressed position as the clone source anchor
and returns — no brush pointer recorded, the brush not set down, no
paint pass; a subsequent press (source anchor present, no destination
start anchor) stores the destination start anchor, records the pointer
sample and sets the brush down. -/
theorem clone_press_anchor_protocol (s : SpriteState) (x y : Int) (touch : Bool)
    (o : ToolOptions) (hcp : s.isColorPicker = false) (hpm : s.isPaintMode = true)
    (ht : s.toolType = some Tool.clone) (ho : s.toolOptions = some o) :
    (o.coords = none →
       (handlePress x y touch s).toolOptions = some { o with coords := some ⟨x, y⟩ } ∧
       (handlePress x y touch s).cloneStartCoords = none ∧
       (handlePress x y touch s).brush = s.brush ∧
       (handlePress x y touch s).paintLog = s.paintLog ∧
       (handlePress x y touch s).layerWrites = s.layerWrites ∧
       (handlePress x y touch s).tempWrites = s.tempWrites) ∧
    (∀ c, o.coords = some c → s.cloneStartCoords = none →
       (handlePress x y touch s).cloneStartCoords = some ⟨x, y⟩ ∧
       (handlePress x y touch s).brush.down = true ∧
       (handlePress x y touch s).brush.pointers = s.brush.pointers ++ [⟨x, y⟩]) := by
  constructor
  · intro hc
    cases touch <;> simp [handlePress, storeBrushPointer, hcp, hpm, ht, ho, hc]
  · intro c hc hsc
    cases touch <;> simp [handlePress, storeBrushPointer, hcp, hpm, ht, ho, hc, hsc]

/-- C7 (witness): the two-press clone protocol at a concrete sprite:
first press records the source anchor without touching the brush, the
second press records the destination anchor and begins stroking. -/
theorem clone_press_anchor_protocol_witness :
    (cloneSprite.toolOptions = some exOpts ∧ exOpts.coords = none ∧
     cloneSprite.brush.down = false) ∧
    (handlePress 10 20 false cloneSprite).toolOptions
      = some { exOpts with coords := some ⟨10, 20⟩ } ∧
    (handlePress 10 20 false cloneSprite).brush = cloneSprite.brush ∧
    (handlePress 50 50 false (handlePress 10 20 false cloneSprite)).brush.down = true ∧
    (handlePress 50 50 false (handlePress 10 20 false cloneSprite)).cloneStartCoords
      = some ⟨50, 50⟩ :=
  ⟨⟨by decide, by decide, by decide⟩,
   ((clone_press_anchor_protocol cloneSprite 10 20 false exOpts
      (by decide) (by decide) (by decide) (by decide)).1 (by decide)).1,
   ((clone_press_anchor_protocol cloneSprite 10 20 false exOpts
      (by decide) (by decide) (by decide) (by decide)).1 (by decide)).2.2.1,
   ((clone_press_anchor_protocol (handlePress 10 20 false cloneSprite) 50 50 false
      { exOpts with coords := some ⟨10, 20⟩ }
      (by decide) (by decide) (by decide) (by decide)).2 ⟨10, 20⟩ (by decide) (by decide)).2.1,
   ((clone_press_anchor_protocol (handlePress 10 20 false cloneSprite) 50 50 false
      { exOpts with coords := some ⟨10, 20⟩ }
      (by decide) (by decide) (by decide) (by decide)).2 ⟨10, 20⟩ (by decide) (by decide)).1⟩

/-- C8: `constrain(3, 3, 8)` returns `(3, 3)` — the nearest-integer
rounding of `3·sqrt(8/9) ≈ 2.83` rounds UP — so the returned product
`9` exceeds the `maxMegaPixel` budget of `8`, contradicting the
function's own contract that the result is within the range. -/
theorem constrain_megapixel_violation :
    constrain 3 3 8 = (3, 3) ∧
    8 < (constrain 3 3 8).1 * (constrain 3 3 8).2 := by
  have hsq9 : Real.sqrt (3 * 3 : ℝ) = 3 := by
    rw [show (3 * 3 : ℝ) = 3 ^ 2 by norm_num]
    exact Real.sqrt_sq (by norm_num)
  have hlo : (5 / 2 : ℝ) ≤ Real.sqrt 8 := by
    have h := Real.sqrt_le_sqrt (show ((5 / 2 : ℝ)) ^ 2 ≤ 8 by norm_num)
    rwa [Real.sqrt_sq (by norm_num : (0:ℝ) ≤ 5 / 2)] at h
  have hhi : Real.sqrt 8 < 7 / 2 := by
    have h := Real.sqrt_lt_sqrt (by norm_num : (0:ℝ) ≤ 8)
      (show (8:ℝ) < (7 / 2) ^ 2 by norm_num)
    rwa [Real.sqrt_sq (by norm_num : (0:ℝ) ≤ 7 / 2)] at h
  have hpos : (0:ℝ) < Real.sqrt 8 := lt_of_lt_of_le (by norm_num) hlo
  have hmul : (3:ℝ) * (Real.sqrt 8 / Real.sqrt (3 * 3)) = Real.sqrt 8 := by
    rw [hsq9]; ring
  have hfloor : ⌊Real.sqrt 8 + 1 / 2⌋ = 3 := by
    apply Int.floor_eq_iff.mpr
    constructor
    · push_cast; linarith
    · push_cast; linarith
  have hfr : fastRound (Real.sqrt 8) = 3 := by
    unfold fastRound
    rw [if_pos hpos, hfloor]
  have hc : constrain 3 3 8 = (3, 3) := by
    simp only [constrain]
    rw [if_pos (show (8:ℝ) < 3 * 3 by norm_num), hmul, hfr]
    norm_num
  exact ⟨hc, by rw [hc]; norm_num⟩

/-- C9: in the low-resolution brush path of `paint()` the context
saves and restores are NOT matched per context: with a selection the
layer context receives two saves but only one restore while the temp
context receives one save and two restores (the second restoring an
empty stack), and without a selection the layer context's preparation
save is never restored at all — whereas every full-resolution pass is
balanced. This contradicts the documented pairing of the numbered
save/restore comments in the source. -/
theorem paint_save_restore_imbalance :
    paintCtxTrace cfgLowResSel =
      [CtxEvent.save CtxId.org, CtxEvent.save CtxId.org, CtxEvent.save CtxId.temp,
       CtxEvent.restore CtxId.org, CtxEvent.restore CtxId.temp, CtxEvent.restore CtxId.temp] ∧
    ctxBalanced CtxId.org (paintCtxTrace cfgLowResSel) = false ∧
    ctxBalanced CtxId.temp (paintCtxTrace cfgLowResSel) = false ∧
    paintCtxTrace cfgLowResNoSel = [CtxEvent.save CtxId.org, CtxEvent.restore CtxId.temp] ∧
    ctxBalanced CtxId.org (paintCtxTrace cfgLowResNoSel) = false ∧
    (ctxBalanced CtxId.org (paintCtxTrace { cfgLowResSel with brushDown := false }) = true ∧
     ctxBalanced CtxId.temp (paintCtxTrace { cfgLowResSel with brushDown := false }) = true ∧
     ctxBalanced CtxId.org (paintCtxTrace { cfgLowResNoSel with brushDown := false }) = true) := by
  decide

/-- C10: for strictly positive inputs, `scaleToRatio` returns
dimensions whose width/height ratio equals `imageWidth/imageHeight`
exactly and which cover the destination area (`width ≥ destWidth` and
`height ≥ destHeight`). -/
theorem scaleToRatio_ratio_and_cover (iw ih dw dh : ℚ)
    (hiw : 0 < iw) (hih : 0 < ih) (hdw : 0 < dw) (hdh : 0 < dh) :
    (scaleToRatio iw ih dw dh).1 / (scaleToRatio iw ih dw dh).2 = iw / ih ∧
    dw ≤ (scaleToRatio iw ih dw dh).1 ∧
    dh ≤ (scaleToRatio iw ih dw dh).2 := by
  have hiw' := hiw.ne'
  have hih' := hih.ne'
  have hdw' := hdw.ne'
  have hdh' := hdh.ne'
  simp only [scaleToRatio]
  set h0 : ℚ := if ih < iw then dw * (ih / iw) else if iw < ih then dw * (ih / iw) else dw
    with hh0
  have h0pos : 0 < h0 := by
    rw [hh0]; split_ifs <;> positivity
  have hratio : dw / h0 = iw / ih := by
    rw [hh0]; split_ifs with h1 h2
    · field_simp; ring
    · field_simp; ring
    · have hEq : iw = ih := le_antisymm (not_lt.mp h1) (not_lt.mp h2)
      rw [hEq, div_self hdw', div_self hih']
  split_ifs with hcov
  · refine ⟨?_, ?_, le_refl dh⟩
    · rw [show dw * (dh / h0) / dh = dw / h0 * (dh / dh) from by ring,
        div_self hdh', mul_one, hratio]
    · have h1 : (1:ℚ) ≤ dh / h0 := (one_le_div h0pos).mpr hcov.le
      calc dw = dw * 1 := (mul_one dw).symm
        _ ≤ dw * (dh / h0) := mul_le_mul_of_nonneg_left h1 hdw.le
  · exact ⟨hratio, le_refl dw, not_lt.mp hcov⟩

/-- C10 (witness): a 4:2 image fitted into a 100×60 destination yields
120×60 — exact 2:1 ratio, covering the destination. -/
theorem scaleToRatio_ratio_and_cover_witness :
    ((0:ℚ) < 4 ∧ (0:ℚ) < 2 ∧ (0:ℚ) < 100 ∧ (0:ℚ) < 60) ∧
    (scaleToRatio 4 2 100 60).1 / (scaleToRatio 4 2 100 60).2 = 4 / 2 ∧
    (100:ℚ) ≤ (scaleToRatio 4 2 100 60).1 ∧
    (60:ℚ) ≤ (scaleToRatio 4 2 100 60).2 :=
  ⟨⟨by decide, by decide, by decide, by decide⟩,
   (scaleToRatio_ratio_and_cover 4 2 100 60 (by decide) (by decide) (by decide) (by decide)).1,
   (scaleToRatio_ratio_and_cover 4 2 100 60 (by decide) (by decide) (by decide) (by decide)).2.1,
   (scaleToRatio_ratio_and_cover 4 2 100 60 (by decide) (by decide) (by decide) (by decide)).2.2⟩

end Bitmappery
